import Mathlib

/-!
Verification development for the statslogger repository.

The repository contains several historical variants of a small telemetry
ingestion server.  We shallowly embed the request handlers and the process
lifecycle of the variants the claims cite:
* `main.go` (second unit, the GCS-backed variant): `Server.json`,
  `Server.form`, `NewServer`, `Server.Run`;
* `unnamed/part_001` (the otel variant): `Server.json`, `cors`;
* `unnamed/part_002` / `part_003` (the RPC variants): `Server.csp`,
  `Server.beacon`.

Pure helpers from the Go standard library that the handlers call
(`json.Valid`, `strconv.ParseInt`, `strings.TrimSuffix`, form lookup) are
embedded faithfully from their documented semantics, since the handlers'
behaviour hinges on them.
-/

/-- The character `\x7b` (opening curly brace). -/
def lbrace : Char := '\x7b'

/-- The character `\x7d` (closing curly brace). -/
def rbrace : Char := '\x7d'

/-- JSON insignificant whitespace, as in Go `encoding/json` (`isSpace`). -/
def isWs (c : Char) : Bool := c = ' ' || c = '\t' || c = '\n' || c = '\r'

/-- Drop leading JSON whitespace. -/
def skipWs : List Char → List Char
  | [] => []
  | c :: cs => if isWs c then skipWs cs else c :: cs

/-- Consume an expected literal sequence of characters, returning the rest. -/
def dropLit : List Char → List Char → Option (List Char)
  | [], input => some input
  | _ :: _, [] => none
  | c :: cs, d :: input => if c = d then dropLit cs input else none

/-- Hexadecimal digit test (for `\uXXXX` escapes in JSON strings). -/
def isHexDigitCh (c : Char) : Bool :=
  c.isDigit || ('a' ≤ c && c ≤ 'f') || ('A' ≤ c && c ≤ 'F')

/-- Scan the remainder of a JSON string literal (after the opening quote),
per the Go `encoding/json` scanner: characters below 0x20 are invalid,
escapes are one of `" \ / b f n r t` or `uXXXX`. Returns the input after
the closing quote. -/
def scanStringRest : List Char → Option (List Char)
  | [] => none
  | c :: cs =>
    if c = '"' then some cs
    else if c = '\\' then
      match cs with
      | [] => none
      | e :: cs2 =>
        if e = 'u' then
          match cs2 with
          | h1 :: h2 :: h3 :: h4 :: cs3 =>
            if isHexDigitCh h1 && isHexDigitCh h2 && isHexDigitCh h3 && isHexDigitCh h4 then
              scanStringRest cs3
            else none
          | _ => none
        else if e = '"' || e = '\\' || e = '/' || e = 'b' || e = 'f' || e = 'n' || e = 'r' || e = 't' then
          scanStringRest cs2
        else none
    else if c.toNat < 32 then none
    else scanStringRest cs

/-- Scan the fractional part of a JSON number, if present. -/
def scanFrac (l : List Char) : Option (List Char) :=
  match l with
  | '.' :: rest =>
    let p := rest.span Char.isDigit
    if p.1.isEmpty then none else some p.2
  | _ => some l

/-- Scan the exponent part of a JSON number, if present. -/
def scanExp (l : List Char) : Option (List Char) :=
  match l with
  | [] => some []
  | c :: rest =>
    if c = 'e' || c = 'E' then
      let rest2 :=
        match rest with
        | s :: r2 => if s = '+' || s = '-' then r2 else rest
        | [] => rest
      let p := rest2.span Char.isDigit
      if p.1.isEmpty then none else some p.2
    else some l

/-- Scan a JSON number starting at its first digit (sign already consumed):
`0 | [1-9][0-9]*`, then optional fraction and exponent. -/
def scanNumber : List Char → Option (List Char)
  | [] => none
  | c :: cs =>
    if c = '0' then (scanFrac cs).bind scanExp
    else if c.isDigit then
      let p := cs.span Char.isDigit
      (scanFrac p.2).bind scanExp
    else none

/-- Parsing mode of the JSON scanner: a value, an object after `\x7b`, an
object after a member, an array after `[`, an array after an element. -/
inductive JMode
  | val
  | obj
  | objTail
  | arr
  | arrTail
deriving Repr, DecidableEq

/-- One fuel-indexed scanner covering all JSON forms, embedding the grammar
accepted by Go `encoding/json` (`checkValid` / the stream scanner).  Returns
the input remaining after one complete value (in mode `val`).  Fuel only
bounds recursion through composite structure; each unit of fuel is spent
after at least one character is consumed, so `length + 1` fuel suffices. -/
def jsonP : Nat → JMode → List Char → Option (List Char)
  | 0, _, _ => none
  | Nat.succ fuel, mode, l =>
    match mode with
    | JMode.val =>
      match skipWs l with
      | [] => none
      | c :: cs =>
        if c = '"' then scanStringRest cs
        else if c = '-' then scanNumber cs
        else if c.isDigit then scanNumber (c :: cs)
        else if c = 't' then dropLit ['r', 'u', 'e'] cs
        else if c = 'f' then dropLit ['a', 'l', 's', 'e'] cs
        else if c = 'n' then dropLit ['u', 'l', 'l'] cs
        else if c = lbrace then jsonP fuel JMode.obj cs
        else if c = '[' then jsonP fuel JMode.arr cs
        else none
    | JMode.obj =>
      match skipWs l with
      | [] => none
      | c :: cs =>
        if c = rbrace then some cs
        else if c = '"' then
          match scanStringRest cs with
          | none => none
          | some r1 =>
            match skipWs r1 with
            | ':' :: r2 =>
              match jsonP fuel JMode.val r2 with
              | none => none
              | some r3 => jsonP fuel JMode.objTail r3
            | _ => none
        else none
    | JMode.objTail =>
      match skipWs l with
      | [] => none
      | c :: cs =>
        if c = rbrace then some cs
        else if c = ',' then
          match skipWs cs with
          | c2 :: cs2 =>
            if c2 = '"' then
              match scanStringRest cs2 with
              | none => none
              | some r1 =>
                match skipWs r1 with
                | ':' :: r2 =>
                  match jsonP fuel JMode.val r2 with
                  | none => none
                  | some r3 => jsonP fuel JMode.objTail r3
                | _ => none
            else none
          | [] => none
        else none
    | JMode.arr =>
      match skipWs l with
      | ']' :: cs => some cs
      | _ =>
        match jsonP fuel JMode.val l with
        | none => none
        | some r => jsonP fuel JMode.arrTail r
    | JMode.arrTail =>
      match skipWs l with
      | ']' :: cs => some cs
      | ',' :: cs =>
        match jsonP fuel JMode.val cs with
        | none => none
        | some r => jsonP fuel JMode.arrTail r
      | _ => none

/-- Remaining input after one complete JSON value, with default fuel. -/
def jsonFirstValue (l : List Char) : Option (List Char) :=
  jsonP (l.length + 1) JMode.val l

/-- Embedding of Go `json.Valid`: one JSON value, with only whitespace
allowed after it. -/
def jsonValid (s : String) : Bool :=
  match jsonFirstValue s.data with
  | none => false
  | some rest => (skipWs rest).isEmpty

/-- Go `http.Header.Get`: the header value, or `""` when absent. -/
def headerGet : Option String → String
  | some v => v
  | none => ""

/-- Remote address resolution, as written identically in every handler:
`remote := r.Header.Get("x-forwarded-for"); if remote == "" \x7b remote =
r.RemoteAddr \x7d`. -/
def resolveRemote (xff : Option String) (remoteAddr : String) : String :=
  let remote := headerGet xff
  if remote = "" then remoteAddr else remote

/-- An inbound HTTP request, restricted to the parts the handlers consult. -/
structure Request where
  method : String
  path : String
  xForwardedFor : Option String
  remoteAddr : String
  body : String
  form : List (String × String)
  userAgent : String
deriving Repr, DecidableEq

/-- Go `r.FormValue(key)`: the first value for the key, `""` when absent. -/
def formValue (form : List (String × String)) (key : String) : String :=
  match form.find? (fun kv => kv.1 = key) with
  | some kv => kv.2
  | none => ""

/-- Go `strings.TrimSuffix`: drop the suffix when present, else unchanged. -/
def trimSuffix (s suf : String) : String :=
  if suf.data.isSuffixOf s.data then String.mk (s.data.take (s.data.length - suf.data.length))
  else s

/-- Error cases of Go `strconv.ParseInt` / `ParseUint`. -/
inductive ParseErr
  | malformed
  | outOfRange
deriving Repr, DecidableEq

/-- Go `strconv.ParseUint(s, 10, 64)` digit loop: accumulates into `n`;
a non-digit is a syntax error (result 0); overflow past `2^64 - 1` stops
with the max value and a range error. `cutoff = maxVal/10 + 1`. -/
def parseUintCore : List Char → Nat → Nat × Option ParseErr
  | [], n => (n, none)
  | c :: cs, n =>
    if c.isDigit then
      let d := c.toNat - 48
      if n ≥ (2 ^ 64 - 1) / 10 + 1 then (2 ^ 64 - 1, some ParseErr.outOfRange)
      else
        let n1 := n * 10 + d
        if n1 > 2 ^ 64 - 1 then (2 ^ 64 - 1, some ParseErr.outOfRange)
        else parseUintCore cs n1
    else (0, some ParseErr.malformed)

/-- The final range checks of Go `strconv.ParseInt` with `bitSize = 64`,
applied to the magnitude `ParseUint` returned (whether or not it already
reported a range error): at or past `2^63` positive means the clamped
`2^63 - 1`, past `2^63` in magnitude negative means `-2^63`, both with a
range error; otherwise the signed value. -/
def parseIntFinish (neg : Bool) (un : Nat) : Int × Option ParseErr :=
  if !neg && un ≥ 2 ^ 63 then ((2 ^ 63 - 1 : Int), some ParseErr.outOfRange)
  else if neg && un > 2 ^ 63 then (-(2 ^ 63 : Int), some ParseErr.outOfRange)
  else ((if neg then -(un : Int) else (un : Int)), none)

/-- Go `strconv.ParseInt` after the sign was stripped: an empty digit
string or any non-range `ParseUint` error is a syntax error with value 0;
otherwise the range checks run on the accumulated magnitude. -/
def parseIntSigned : Bool → List Char → Int × Option ParseErr
  | _, [] => (0, some ParseErr.malformed)
  | neg, d :: ds =>
    if (parseUintCore (d :: ds) 0).2 = some ParseErr.malformed then (0, some ParseErr.malformed)
    else parseIntFinish neg (parseUintCore (d :: ds) 0).1

/-- Go `strconv.ParseInt(s, 10, 64)`: optional sign, then `ParseUint`;
syntax errors yield 0; values at or beyond `2^63` (positive) or beyond
`2^63` in magnitude (negative) yield the clamped extreme with a range
error. -/
def parseInt64 (s : String) : Int × Option ParseErr :=
  match s.data with
  | [] => (0, some ParseErr.malformed)
  | '+' :: rest => parseIntSigned false rest
  | '-' :: rest => parseIntSigned true rest
  | c :: rest => parseIntSigned false (c :: rest)


/-- The payload a handler hands to the data logger: the raw JSON body for
`/json`, the parsed form (as marshalled from `r.Form`) for `/form`. -/
inductive Payload
  | raw (b : String)
  | formData (kvs : List (String × String))
deriving Repr, DecidableEq

/-- One line written to the data sink (`s.data.Log()...Msg("received")` in
`main.go`): the handler path, the resolved remote, and the payload.  The
exact zerolog field serialization is abstracted; the claims only inspect
which writes happen and with what remote/payload. -/
structure SinkLine where
  handler : String
  remote : String
  payload : Payload
deriving Repr, DecidableEq

/-- Observable outcome of one handler invocation in the `main.go` (GCS)
variant: the HTTP status written, response headers and body, the sink
writes attempted, the metric increments, and whether the handler
terminated the process. -/
structure HandlerOut where
  status : Nat
  headers : List (String × String)
  respBody : String
  sinkWrites : List SinkLine
  counterIncs : Nat
  terminated : Bool
deriving Repr, DecidableEq

/-- CORS headers set by the OPTIONS branches of `main.go`'s handlers. -/
def mainCorsHeaders : List (String × String) :=
  [("Access-Control-Allow-Origin", "*"), ("Access-Control-Allow-Methods", "POST, GET, OPTIONS")]

/-- Embedding of `Server.json` from `main.go` (lines 257-292, the GCS
variant).  Control flow: OPTIONS gets CORS headers and 204; POST writes
204 immediately, then reads and validates the body — an invalid body is
only logged (the status is already committed); a valid body is written to
the data sink with the resolved remote and the counter is incremented; any
other method gets 405.  `writeOk` says whether the underlying GCS write
would succeed; the Go code receives no error from `s.data.Log()` (zerolog
discards write errors), so no branch consults it. -/
def mainJson (r : Request) (writeOk : Bool) : HandlerOut :=
  if r.method = "OPTIONS" then
    { status := 204, headers := mainCorsHeaders, respBody := "", sinkWrites := [],
      counterIncs := 0, terminated := false }
  else if r.method = "POST" then
    if jsonValid r.body then
      { status := 204, headers := [], respBody := "",
        sinkWrites := [{ handler := r.path,
                         remote := resolveRemote r.xForwardedFor r.remoteAddr,
                         payload := Payload.raw r.body }],
        counterIncs := 1, terminated := false }
    else
      { status := 204, headers := [], respBody := "", sinkWrites := [],
        counterIncs := 0, terminated := false }
  else
    { status := 405, headers := [], respBody := "", sinkWrites := [],
      counterIncs := 0, terminated := false }

/-- Embedding of `Server.form` from `main.go` (lines 296-327): OPTIONS gets
CORS headers and 204; GET/POST write 204, marshal the parsed form, write it
to the data sink and increment the counter; other methods get 405.  As in
`mainJson`, `writeOk` is never consulted by the code. -/
def mainForm (r : Request) (writeOk : Bool) : HandlerOut :=
  if r.method = "OPTIONS" then
    { status := 204, headers := mainCorsHeaders, respBody := "", sinkWrites := [],
      counterIncs := 0, terminated := false }
  else if r.method = "GET" || r.method = "POST" then
    { status := 204, headers := [], respBody := "",
      sinkWrites := [{ handler := r.path,
                       remote := resolveRemote r.xForwardedFor r.remoteAddr,
                       payload := Payload.formData r.form }],
      counterIncs := 1, terminated := false }
  else
    { status := 405, headers := [], respBody := "", sinkWrites := [],
      counterIncs := 0, terminated := false }

/-- Outcome of `Server.json` in `unnamed/part_001` (lines 130-162): a
status and whether the body was logged (that variant has no data sink;
`s.log.Info` is its only output). -/
structure SimpleOut where
  status : Nat
  logged : Bool
deriving Repr, DecidableEq

/-- Embedding of `Server.json` from `unnamed/part_001`: the body is read
(read errors are out of scope since the body is given), validated with
`json.Valid`, and an invalid body gets `http.Error(..., 400)` with
nothing logged as data; a valid one gets 200. -/
def part001Json (body : String) : SimpleOut :=
  if jsonValid body then { status := 200, logged := true }
  else { status := 400, logged := false }

/-- Result of the `cors` wrapper in `unnamed/part_001` (lines 217-236). -/
inductive CorsResult
  | preflight (headers : List (String × String))
  | passThrough (headers : List (String × String))
  | methodNotAllowed
deriving Repr, DecidableEq

/-- Headers set by `cors` for OPTIONS and for GET/POST. -/
def corsHeaders : List (String × String) :=
  [("Access-Control-Allow-Origin", "*"), ("Access-Control-Allow-Methods", "GET, POST"),
   ("Access-Control-Max-Age", "86400")]

/-- Embedding of `cors` from `unnamed/part_001`: OPTIONS answers 204 with
the CORS headers and never invokes the wrapped handler; GET/POST set the
headers and pass through; anything else answers 405. -/
def cors (method : String) : CorsResult :=
  if method = "OPTIONS" then CorsResult.preflight corsHeaders
  else if method = "GET" || method = "POST" then CorsResult.passThrough corsHeaders
  else CorsResult.methodNotAllowed

/-- The record `Server.beacon` forwards downstream
(`stream.BeaconRequest` in `unnamed/part_002`, lines 134-141). -/
structure BeaconRequest where
  durationMs : Int
  srcPage : String
  dstPage : String
  remote : String
  userAgent : String
  referrer : String
deriving Repr, DecidableEq

/-- Observable outcome of `Server.beacon`: status, the requests forwarded
via `client.LogBeacon`, and whether the duration-parse warning fired. -/
structure BeaconOut where
  status : Nat
  forwarded : List BeaconRequest
  warned : Bool
deriving Repr, DecidableEq

/-- Embedding of `Server.beacon` from `unnamed/part_002` (lines 119-151;
`part_003` lines 137-172 is the same flow): resolve the remote, parse the
`dur` form field after trimming a trailing `ms` (a parse error only logs a
warning; the value `strconv.ParseInt` returned is used regardless), build
the request from the form fields, forward it, and answer 204 — or 500 when
the downstream call fails (`rpcOk = false`). -/
def beacon (r : Request) (rpcOk : Bool) : BeaconOut :=
  let remote := resolveRemote r.xForwardedFor r.remoteAddr
  let p := parseInt64 (trimSuffix (formValue r.form "dur") "ms")
  let req : BeaconRequest :=
    { durationMs := p.1, srcPage := formValue r.form "src",
      dstPage := formValue r.form "dst", remote := remote,
      userAgent := r.userAgent, referrer := formValue r.form "referrer" }
  { status := if rpcOk then 204 else 500, forwarded := [req], warned := p.2.isSome }

/-- Steps of the process lifecycle around the sink, in `main.go`'s second
unit: `NewServer` opens the object writer (line 247), `Run` starts
`ListenAndServe` (332), stops accepting (the listener is closed either by
the serve error or by `srv.Shutdown`, 337-341), logs the exit (343), and
closes the writer exactly once (345), logging a close error (347). -/
inductive LifeStep
  | openSink
  | startServe
  | stopAccepting
  | logExit
  | closeSink
  | logCloseError
deriving Repr, DecidableEq, BEq

/-- Which arm of the `select` in `Run` fires: the serve goroutine returned
an error, or the signal context was cancelled and `Shutdown` ran. -/
inductive StopCause
  | serveError
  | shutdownSignal
deriving Repr, DecidableEq, BEq

/-- Embedding of `Server.Run` (main.go lines 329-349) as its sequence of
lifecycle steps. -/
def runSteps (cause : StopCause) (closeOk : Bool) : List LifeStep :=
  LifeStep.startServe ::
    (match cause with
     | StopCause.serveError => [LifeStep.stopAccepting]
     | StopCause.shutdownSignal => [LifeStep.stopAccepting]) ++
    LifeStep.logExit :: LifeStep.closeSink ::
    (if closeOk then [] else [LifeStep.logCloseError])

/-- Whole-process lifecycle: `NewServer` (main.go 239-254) either fails
fatally configuring the storage client before any sink is opened
(`setupOk = false`, `log.Fatal` at line 241), or opens the sink exactly
once and proceeds into `Run`. -/
def processSteps (setupOk : Bool) (cause : StopCause) (closeOk : Bool) : List LifeStep :=
  if setupOk then LifeStep.openSink :: runSteps cause closeOk else []

/-- Modelled from the spec: the repository declares the event record
(`event` in `main.go` lines 95-101 and 164-170) but contains no code that
serializes it — the sink lines are produced by the logging library, which
is outside the repository.  Spec section 6 fixes the persisted layout:
"one JSON object per line (newline-delimited), each object matching the
Event shape".  The timestamp is carried as its formatted string, as the
RPC variants do (`time.Now().Format(time.RFC3339)`). -/
structure event where
  Time : String
  Remote : String
  Trigger : String
  Src : String
  Dst : String
  Dur : String
deriving Repr, DecidableEq

/-- JSON string escaping for the sink format: quote and backslash are
escaped, everything else is literal. -/
def escapeChar (c : Char) : List Char :=
  if c = '"' then ['\\', '"']
  else if c = '\\' then ['\\', '\\']
  else [c]

/-- Escape a whole string, character by character. -/
def escapeList : List Char → List Char
  | [] => []
  | c :: cs => escapeChar c ++ escapeList cs

/-- A quoted, escaped JSON string literal. -/
def quoteStr (s : String) : List Char := '"' :: (escapeList s.data ++ ['"'])

/-- One `"name":"value"` member; field names are program constants and
need no escaping. -/
def jfield (name : String) (v : String) : List Char :=
  '"' :: (name.data ++ ('"' :: ':' :: quoteStr v))

/-- Modelled from the spec: serialize an Event to one line of the sink
format, fields in declaration order, newline-terminated. -/
def marshalEvent (e : event) : String :=
  String.mk ([lbrace] ++
    (jfield "Time" e.Time ++ ([','] ++
      (jfield "Remote" e.Remote ++ ([','] ++
        (jfield "Trigger" e.Trigger ++ ([','] ++
          (jfield "Src" e.Src ++ ([','] ++
            (jfield "Dst" e.Dst ++ ([','] ++
              (jfield "Dur" e.Dur ++ [rbrace, '\n']))))))))))))

/-- Read a JSON string body up to its closing quote, undoing `escapeChar`:
a backslash takes the next character literally. -/
def unquote : List Char → Option (List Char × List Char)
  | [] => none
  | '"' :: cs => some ([], cs)
  | '\\' :: [] => none
  | '\\' :: d :: cs2 =>
    match unquote cs2 with
    | none => none
    | some p => some (d :: p.1, p.2)
  | c :: cs =>
    match unquote cs with
    | none => none
    | some p => some (c :: p.1, p.2)

/-- Expect one `"name":"value"` member and return the unescaped value and
the rest of the input. -/
def expectField (name : String) (l : List Char) : Option (List Char × List Char) :=
  match dropLit ('"' :: (name.data ++ ['"', ':', '"'])) l with
  | none => none
  | some r => unquote r

/-- Modelled from the spec: parse one line of the sink format back into an
Event; the whole line must be consumed. -/
def parseEventLine (s : String) : Option event :=
  (dropLit [lbrace] s.data).bind fun r0 =>
  (expectField "Time" r0).bind fun p1 =>
  (dropLit [','] p1.2).bind fun r1 =>
  (expectField "Remote" r1).bind fun p2 =>
  (dropLit [','] p2.2).bind fun r2 =>
  (expectField "Trigger" r2).bind fun p3 =>
  (dropLit [','] p3.2).bind fun r3 =>
  (expectField "Src" r3).bind fun p4 =>
  (dropLit [','] p4.2).bind fun r4 =>
  (expectField "Dst" r4).bind fun p5 =>
  (dropLit [','] p5.2).bind fun r5 =>
  (expectField "Dur" r5).bind fun p6 =>
  (dropLit [rbrace, '\n'] p6.2).bind fun r6 =>
  match r6 with
  | [] => some { Time := String.mk p1.1, Remote := String.mk p2.1, Trigger := String.mk p3.1,
                 Src := String.mk p4.1, Dst := String.mk p5.1, Dur := String.mk p6.1 }
  | _ => none

/-- A sample event exercising the escape cases. -/
def sampleEvent : event :=
  { Time := "2020-01-01T00:00:00Z", Remote := "1.2.3.4", Trigger := "ping",
    Src := "/a \"q\" \\ b", Dst := "/b", Dur := "1500ms" }


/-! ## Concrete requests used by counterexamples and witnesses -/

/-- A POST to `/json` whose body is not valid JSON. -/
def c1req : Request :=
  { method := "POST", path := "/json", xForwardedFor := none, remoteAddr := "p",
    body := "not json", form := [], userAgent := "" }

/-- A POST to `/json` with a small valid JSON body. -/
def c3req : Request :=
  { method := "POST", path := "/json", xForwardedFor := none,
    remoteAddr := "10.0.0.1:1234", body := "\x7b\"a\":1\x7d", form := [], userAgent := "" }

/-- The spec's concrete beacon scenario. -/
def c4req : Request :=
  { method := "POST", path := "/beacon", xForwardedFor := none,
    remoteAddr := "203.0.113.9:4242", body := "",
    form := [("dur", "1500ms"), ("src", "/home"), ("dst", "/about"), ("referrer", "https://x")],
    userAgent := "ua" }

/-- A valid-JSON POST to `/json` carrying a forwarded-for header. -/
def c5req : Request :=
  { method := "POST", path := "/json", xForwardedFor := some "1.2.3.4",
    remoteAddr := "10.0.0.1:9", body := "\x7b\x7d", form := [], userAgent := "" }

/-- An OPTIONS request to `/form`. -/
def c6req : Request :=
  { method := "OPTIONS", path := "/form", xForwardedFor := none, remoteAddr := "p",
    body := "", form := [], userAgent := "" }

/-- A beacon whose `dur` is an out-of-range integer (2^63) with the `ms`
suffix. -/
def c7req : Request :=
  { method := "POST", path := "/beacon", xForwardedFor := none, remoteAddr := "p",
    body := "", form := [("dur", "9223372036854775808ms")], userAgent := "" }

/-- A beacon whose `dur` is syntactically not a number. -/
def c7breq : Request :=
  { method := "POST", path := "/beacon", xForwardedFor := none, remoteAddr := "p",
    body := "", form := [("dur", "xms")], userAgent := "" }

theorem parseInt64_checks :
    parseInt64 "1500" = (1500, none) ∧
    parseInt64 "" = (0, some ParseErr.malformed) ∧
    parseInt64 "abc" = (0, some ParseErr.malformed) ∧
    parseInt64 "+42" = (42, none) ∧
    parseInt64 "-42" = (-42, none) ∧
    parseInt64 "9223372036854775808" = (9223372036854775807, some ParseErr.outOfRange) ∧
    parseInt64 "-9223372036854775809" = (-9223372036854775808, some ParseErr.outOfRange) := by
  decide

theorem jsonValid_checks :
    jsonValid "not json" = false ∧
    jsonValid " \x7b\"a\": [1, -2.5e3, \"x\", true, null]\x7d " = true ∧
    jsonValid "\x7b\"a\":1" = false ∧
    jsonValid "" = false ∧
    jsonValid "\x7b\x7d" = true := by
  decide

theorem trimSuffix_check : trimSuffix "1500ms" "ms" = "1500" := by decide

theorem roundtrip_check : parseEventLine (marshalEvent sampleEvent) = some sampleEvent := by
  decide

/-! ## Round-trip lemmas for the sink line format -/

/-- `parseIntFinish` never reports a syntax error. -/
theorem parseIntFinish_not_malformed (neg : Bool) (un : Nat) :
    ¬ ((parseIntFinish neg un).2 = some ParseErr.malformed) := by
  unfold parseIntFinish
  repeat' split
  all_goals simp

/-- A syntax error from `parseIntSigned` always comes with value 0. -/
theorem parseIntSigned_malformed_val (neg : Bool) (l : List Char) :
    (parseIntSigned neg l).2 = some ParseErr.malformed → (parseIntSigned neg l).1 = 0 := by
  intro h
  cases l with
  | nil => rfl
  | cons d ds =>
    by_cases hc : (parseUintCore (d :: ds) 0).2 = some ParseErr.malformed
    · simp [parseIntSigned, hc]
    · simp [parseIntSigned, hc] at h
      exact absurd h (parseIntFinish_not_malformed _ _)

/-- A syntax error from `parseInt64` always comes with value 0 (range
errors, by contrast, come with the clamped extreme). -/
theorem parseInt64_malformed_val (s : String) :
    (parseInt64 s).2 = some ParseErr.malformed → (parseInt64 s).1 = 0 := by
  unfold parseInt64
  split
  · intro _; rfl
  all_goals exact parseIntSigned_malformed_val _ _

/-- C1, counterexample: in `main.go`'s `Server.json`, a POST with the
invalid body `not json` is answered with status 204 — not 400 — because the
handler writes the success status before validating; no event reaches the
sink. -/
theorem mainJson_invalid_status_cex :
    (mainJson c1req true).status = 204 ∧
    ¬ ((mainJson c1req true).status = 400) ∧
    (mainJson c1req true).sinkWrites = [] := by decide

/-- C1, amended: for every syntactically invalid JSON body POSTed to
`/json`, no event record reaches the sink in the `main.go` variant and the
`part_001` handler answers 400; the `main.go` handler, having already
committed the status, answers 204. -/
theorem invalid_json_amended (b : String) (r : Request) (w : Bool)
    (hb : jsonValid b = false) (hm : r.method = "POST") (hr : r.body = b) :
    (part001Json b).status = 400 ∧
    (part001Json b).logged = false ∧
    (mainJson r w).sinkWrites = [] ∧
    (mainJson r w).status = 204 := by
  refine ⟨?_, ?_, ?_, ?_⟩ <;> simp [part001Json, mainJson, hb, hm, hr]

/-- C1, witness for `invalid_json_amended` at the body `not json`. -/
theorem invalid_json_amended_witness :
    (part001Json "not json").status = 400 ∧
    (part001Json "not json").logged = false ∧
    (mainJson c1req true).sinkWrites = [] ∧
    (mainJson c1req true).status = 204 :=
  invalid_json_amended "not json" c1req true (by decide) rfl rfl

/-- C3, counterexample: on a valid POST whose sink write fails
(`writeOk = false`), `main.go`'s `Server.json` still attempts exactly the
one write, does not terminate the process, and answers 204: zerolog
discards the write error, so the failure is invisible to the handler. -/
theorem sink_write_failure_not_fatal_cex :
    (mainJson c3req false).sinkWrites.length = 1 ∧
    (mainJson c3req false).terminated = false ∧
    (mainJson c3req false).status = 204 := by decide

/-- C3, amended: a failed sink write at runtime is silently ignored: the
handlers' behaviour is independent of the write outcome, they never
terminate the process and never retry (at most one write per request);
only the `Close` error at shutdown is logged (`logCloseError` in
`processSteps`), without aborting the orderly exit. -/
theorem sink_write_failure_ignored (r : Request) (w : Bool) (cause : StopCause) :
    mainJson r w = mainJson r true ∧
    mainForm r w = mainForm r true ∧
    (mainJson r w).terminated = false ∧
    (mainForm r w).terminated = false ∧
    (mainJson r w).sinkWrites.length ≤ 1 ∧
    (mainForm r w).sinkWrites.length ≤ 1 ∧
    (processSteps true cause false).count LifeStep.logCloseError = 1 ∧
    (processSteps true cause false).count LifeStep.closeSink = 1 := by
  refine ⟨rfl, rfl, ?_, ?_, ?_, ?_, ?_, ?_⟩
  · unfold mainJson
    repeat' split
    all_goals rfl
  · unfold mainForm
    repeat' split
    all_goals rfl
  · unfold mainJson
    repeat' split
    all_goals simp
  · unfold mainForm
    repeat' split
    all_goals simp
  · cases cause <;> decide
  · cases cause <;> decide

/-- C4: the spec's beacon scenario: POSTing
`dur=1500ms&src=/home&dst=/about&referrer=https://x` to `/beacon` (with the
downstream RPC healthy) answers 204 and forwards exactly one record with
`DurationMs = 1500` (the `ms` suffix stripped, the rest parsed),
`SrcPage = "/home"` and `DstPage = "/about"`. -/
theorem beacon_concrete_scenario (rpcOk : Bool) (h : rpcOk = true) :
    (beacon c4req rpcOk).status = 204 ∧
    (beacon c4req rpcOk).forwarded.length = 1 ∧
    (beacon c4req rpcOk).forwarded.map BeaconRequest.durationMs = [1500] ∧
    (beacon c4req rpcOk).forwarded.map BeaconRequest.srcPage = ["/home"] ∧
    (beacon c4req rpcOk).forwarded.map BeaconRequest.dstPage = ["/about"] := by
  subst h; decide

/-- C4, witness for `beacon_concrete_scenario`. -/
theorem beacon_concrete_scenario_witness :
    (beacon c4req true).status = 204 ∧
    (beacon c4req true).forwarded.length = 1 ∧
    (beacon c4req true).forwarded.map BeaconRequest.durationMs = [1500] ∧
    (beacon c4req true).forwarded.map BeaconRequest.srcPage = ["/home"] ∧
    (beacon c4req true).forwarded.map BeaconRequest.dstPage = ["/about"] :=
  beacon_concrete_scenario true rfl

/-- C5: for an accepted POST, the remote recorded on the sink line is
`resolveRemote`, which returns the forwarded-for header verbatim when it is
present and non-empty and the raw peer address otherwise; an absent header
is handled by the same fallback, never an error. -/
theorem remote_resolution (r : Request) (w : Bool)
    (hm : r.method = "POST") (hv : jsonValid r.body = true) :
    (mainJson r w).sinkWrites.map SinkLine.remote =
      [resolveRemote r.xForwardedFor r.remoteAddr] ∧
    (∀ v, r.xForwardedFor = some v → ¬ v = "" →
      resolveRemote r.xForwardedFor r.remoteAddr = v) ∧
    (r.xForwardedFor = none →
      resolveRemote r.xForwardedFor r.remoteAddr = r.remoteAddr) ∧
    (r.xForwardedFor = some "" →
      resolveRemote r.xForwardedFor r.remoteAddr = r.remoteAddr) := by
  refine ⟨?_, ?_, ?_, ?_⟩
  · simp [mainJson, hm, hv]
  · intro v hx hne; simp [resolveRemote, headerGet, hx, hne]
  · intro hx; simp [resolveRemote, headerGet, hx]
  · intro hx; simp [resolveRemote, headerGet, hx]

/-- C5, witness for `remote_resolution` on a request with header
`1.2.3.4`. -/
theorem remote_resolution_witness :
    (mainJson c5req true).sinkWrites.map SinkLine.remote =
      [resolveRemote c5req.xForwardedFor c5req.remoteAddr] ∧
    resolveRemote c5req.xForwardedFor c5req.remoteAddr = "1.2.3.4" :=
  ⟨(remote_resolution c5req true rfl (by decide)).1,
   (remote_resolution c5req true rfl (by decide)).2.1 "1.2.3.4" rfl (by decide)⟩

/-- C6: every OPTIONS request to `/form` is answered 204 with an
`Access-Control-Allow-Methods` header, an empty body, no counter increment
and no event emitted to the sink — both in `main.go`'s handler and in
`part_001`'s `cors` wrapper, which never invokes the wrapped handler on
OPTIONS. -/
theorem options_form_preflight (r : Request) (w : Bool) (h : r.method = "OPTIONS") :
    (mainForm r w).status = 204 ∧
    (mainForm r w).headers.lookup "Access-Control-Allow-Methods" =
      some "POST, GET, OPTIONS" ∧
    (mainForm r w).respBody = "" ∧
    (mainForm r w).sinkWrites = [] ∧
    (mainForm r w).counterIncs = 0 ∧
    cors r.method = CorsResult.preflight corsHeaders ∧
    corsHeaders.lookup "Access-Control-Allow-Methods" = some "GET, POST" := by
  refine ⟨?_, ?_, ?_, ?_, ?_, ?_, ?_⟩ <;>
    simp [mainForm, cors, h, mainCorsHeaders, corsHeaders, List.lookup]

/-- C6, witness for `options_form_preflight`. -/
theorem options_form_preflight_witness :
    (mainForm c6req true).status = 204 ∧
    (mainForm c6req true).headers.lookup "Access-Control-Allow-Methods" =
      some "POST, GET, OPTIONS" ∧
    (mainForm c6req true).respBody = "" ∧
    (mainForm c6req true).sinkWrites = [] ∧
    (mainForm c6req true).counterIncs = 0 ∧
    cors c6req.method = CorsResult.preflight corsHeaders ∧
    corsHeaders.lookup "Access-Control-Allow-Methods" = some "GET, POST" :=
  options_form_preflight c6req true rfl

/-- C7, counterexample: a beacon whose `dur` (`2^63` with the `ms` suffix)
fails to parse still warns and forwards one event, but the forwarded
duration is the clamped `2^63 - 1` returned by `strconv.ParseInt` on range
overflow — not zero. -/
theorem beacon_overflow_not_zero_cex :
    (beacon c7req true).warned = true ∧
    (beacon c7req true).status = 204 ∧
    (beacon c7req true).forwarded.map BeaconRequest.durationMs = [9223372036854775807] ∧
    ¬ ((beacon c7req true).forwarded.map BeaconRequest.durationMs = [0]) := by decide

/-- C7, amended: whenever the trimmed `dur` fails to parse, the handler
warns, still forwards exactly one event, and (when the downstream call
succeeds) still answers 204; the forwarded duration is zero exactly for
syntax failures, while range overflows forward the clamped extreme. -/
theorem beacon_parse_failure_amended (r : Request) (rpcOk : Bool)
    (h : (parseInt64 (trimSuffix (formValue r.form "dur") "ms")).2.isSome = true) :
    (beacon r rpcOk).warned = true ∧
    (beacon r rpcOk).forwarded.length = 1 ∧
    (rpcOk = true → (beacon r rpcOk).status = 204) ∧
    ((parseInt64 (trimSuffix (formValue r.form "dur") "ms")).2 = some ParseErr.malformed →
      (beacon r rpcOk).forwarded.map BeaconRequest.durationMs = [0]) := by
  refine ⟨?_, ?_, ?_, ?_⟩
  · simp [beacon, h]
  · simp [beacon]
  · intro hr; subst hr; simp [beacon]
  · intro hm
    simp [beacon, parseInt64_malformed_val _ hm]

/-- C7, witness for `beacon_parse_failure_amended` at the syntactically
bad duration `xms`. -/
theorem beacon_parse_failure_amended_witness :
    (beacon c7breq true).warned = true ∧
    (beacon c7breq true).forwarded.length = 1 ∧
    (beacon c7breq true).status = 204 ∧
    (beacon c7breq true).forwarded.map BeaconRequest.durationMs = [0] :=
  ⟨(beacon_parse_failure_amended c7breq true (by decide)).1,
   (beacon_parse_failure_amended c7breq true (by decide)).2.1,
   (beacon_parse_failure_amended c7breq true (by decide)).2.2.1 rfl,
   (beacon_parse_failure_amended c7breq true (by decide)).2.2.2 (by decide)⟩

/-- C8: in every execution whose startup succeeds, the sink is opened
exactly once (at startup, as the first step) and closed exactly once, and
the close happens strictly after the server has stopped accepting
requests — for both stop causes and whether or not the close itself
errors. -/
theorem sink_lifecycle (setupOk : Bool) (cause : StopCause) (closeOk : Bool)
    (h : setupOk = true) :
    (processSteps setupOk cause closeOk).count LifeStep.openSink = 1 ∧
    (processSteps setupOk cause closeOk).count LifeStep.closeSink = 1 ∧
    (processSteps setupOk cause closeOk).indexOf LifeStep.openSink = 0 ∧
    (processSteps setupOk cause closeOk).indexOf LifeStep.stopAccepting <
      (processSteps setupOk cause closeOk).indexOf LifeStep.closeSink := by
  subst h; cases cause <;> cases closeOk <;> decide

/-- C8, witness for `sink_lifecycle`. -/
theorem sink_lifecycle_witness :
    (processSteps true StopCause.shutdownSignal true).count LifeStep.openSink = 1 ∧
    (processSteps true StopCause.shutdownSignal true).count LifeStep.closeSink = 1 ∧
    (processSteps true StopCause.shutdownSignal true).indexOf LifeStep.openSink = 0 ∧
    (processSteps true StopCause.shutdownSignal true).indexOf LifeStep.stopAccepting <
      (processSteps true StopCause.shutdownSignal true).indexOf LifeStep.closeSink :=
  sink_lifecycle true StopCause.shutdownSignal true rfl

